import Mathlib

set_option maxRecDepth 8000

/-!
Shallow embedding of the AD56X4 Arduino library (src/AD56X4.h, src/AD56X4.cpp).

Machine integers are modelled as `Nat` with explicit `% 256` (byte) and
`% 65536` (word) where the C++ types truncate.  Each public member function
of `AD56X4Class` is modelled as a function returning the list of 3-byte SPI
frames it emits (one `writeMessage` call = one frame); the slave-select pin
and the SPI bus configuration carry no data and are not modelled.
-/

namespace AD56X4

/-- The command byte constants of AD56X4.h (already shifted into bits 5:3). -/
def AD56X4_COMMAND_WRITE_INPUT_REGISTER : Nat := 0b00000000

def AD56X4_COMMAND_UPDATE_DAC_REGISTER : Nat := 0b00001000

def AD56X4_COMMAND_WRITE_INPUT_REGISTER_UPDATE_ALL : Nat := 0b00010000

def AD56X4_COMMAND_WRITE_UPDATE_CHANNEL : Nat := 0b00011000

def AD56X4_COMMAND_POWER_UPDOWN : Nat := 0b00100000

def AD56X4_COMMAND_RESET : Nat := 0b00101000

def AD56X4_COMMAND_SET_LDAC : Nat := 0b00110000

def AD56X4_COMMAND_REFERENCE_ONOFF : Nat := 0b00111000

/-- The channel address constants of AD56X4.h. -/
def AD56X4_CHANNEL_A : Nat := 0b00000000

def AD56X4_CHANNEL_B : Nat := 0b00000001

def AD56X4_CHANNEL_C : Nat := 0b00000010

def AD56X4_CHANNEL_D : Nat := 0b00000011

def AD56X4_CHANNEL_ALL : Nat := 0b00000111

/-- Set-mode constants of AD56X4.h (aliases of command constants). -/
def AD56X4_SETMODE_INPUT : Nat := AD56X4_COMMAND_WRITE_INPUT_REGISTER

def AD56X4_SETMODE_INPUT_DAC : Nat := AD56X4_COMMAND_WRITE_UPDATE_CHANNEL

def AD56X4_SETMODE_INPUT_DAC_ALL : Nat := AD56X4_COMMAND_WRITE_INPUT_REGISTER_UPDATE_ALL

/-- Power-mode constants of AD56X4.h (already shifted into bits 5:4). -/
def AD56X4_POWERMODE_NORMAL : Nat := 0b00000000

def AD56X4_POWERMODE_POWERDOWN_1K : Nat := 0b00010000

def AD56X4_POWERMODE_POWERDOWN_100K : Nat := 0b00100000

def AD56X4_POWERMODE_TRISTATE : Nat := 0b00110000

/-- One 24-bit SPI message as the three bytes pushed by `SPI.transfer`. -/
structure Frame where
  byte0 : Nat
  byte1 : Nat
  byte2 : Nat
  deriving Repr, DecidableEq

/-- The 16-bit data word carried in bytes 1 and 2 of a frame (big-endian). -/
def frameData (f : Frame) : Nat := f.byte1 * 256 + f.byte2

/-- `AD56X4Class::writeMessage`: byte0 = (command & B00111000) | (address & B00000111),
then the data word MSB first (`highByte`, `lowByte`).  `command` and `address`
are bytes, `data` is a word. -/
def writeMessage (command address data : Nat) : Frame :=
  { byte0 := ((command % 256) &&& 0b00111000) ||| ((address % 256) &&& 0b00000111)
    byte1 := ((data % 65536) >>> 8) % 256
    byte2 := (data % 65536) % 256 }

/-- `AD56X4Class::setChannel (int, byte, byte, word)`: one frame if the
set mode is one of the three recognized codes, otherwise nothing. -/
def setChannel_single (setMode channel value : Nat) : List Frame :=
  if setMode % 256 = AD56X4_SETMODE_INPUT
      ∨ setMode % 256 = AD56X4_SETMODE_INPUT_DAC
      ∨ setMode % 256 = AD56X4_SETMODE_INPUT_DAC_ALL then
    [writeMessage (setMode % 256) (channel % 256) (value % 65536)]
  else []

/-- `AD56X4Class::setChannel (int, byte, word[])`: the loop
`for (int i = 3; i >= 0; i--) writeMessage(SS_pin, setMode, i, values[3-i])`,
guarded by the same set-mode check. -/
def setChannel_array (setMode : Nat) (values : List Nat) : List Frame :=
  if setMode % 256 = AD56X4_SETMODE_INPUT
      ∨ setMode % 256 = AD56X4_SETMODE_INPUT_DAC
      ∨ setMode % 256 = AD56X4_SETMODE_INPUT_DAC_ALL then
    ([3, 2, 1, 0] : List Nat).map
      (fun i => writeMessage (setMode % 256) i (values.getD (3 - i) 0 % 65536))
  else []

/-- `AD56X4Class::setChannel (int, byte, word, word, word, word)`: builds
`word values[] = {value_D, value_C, value_B, value_A}` and calls the array form. -/
def setChannel_four (setMode value_D value_C value_B value_A : Nat) : List Frame :=
  setChannel_array setMode [value_D, value_C, value_B, value_A]

/-- `AD56X4Class::updateChannel`: one frame with the update-DAC-register
command and data 0. -/
def updateChannel (channel : Nat) : List Frame :=
  [writeMessage AD56X4_COMMAND_UPDATE_DAC_REGISTER (channel % 256) 0]

/-- `AD56X4Class::makeChannelMask (boolean, boolean, boolean, boolean)`:
`(byte(channel_D) << 3) | (byte(channel_C) << 2) | (byte(channel_B) << 1) | byte(channel_A)`. -/
def makeChannelMask (channel_D channel_C channel_B channel_A : Bool) : Nat :=
  ((cond channel_D 1 0) <<< 3) ||| ((cond channel_C 1 0) <<< 2)
    ||| ((cond channel_B 1 0) <<< 1) ||| (cond channel_A 1 0)

/-- `AD56X4Class::makeChannelMask (boolean[])`: same packing from
`channels[0] .. channels[3]` (D down to A). -/
def makeChannelMask_array (channels : List Bool) : Nat :=
  ((cond (channels.getD 0 false) 1 0) <<< 3) ||| ((cond (channels.getD 1 false) 1 0) <<< 2)
    ||| ((cond (channels.getD 2 false) 1 0) <<< 1) ||| (cond (channels.getD 3 false) 1 0)

/-- `AD56X4Class::powerUpDown (int, byte, byte)`: one frame, power-updown
command, address 0, data `(B00110000 & powerMode) | (B00001111 & channelMask)`. -/
def powerUpDown_mask (powerMode channelMask : Nat) : List Frame :=
  [writeMessage AD56X4_COMMAND_POWER_UPDOWN 0
    ((0b00110000 &&& (powerMode % 256)) ||| (0b00001111 &&& (channelMask % 256)))]

/-- `AD56X4Class::powerUpDown (int, byte, boolean[])`: delegates to the mask
form through `makeChannelMask`. -/
def powerUpDown_boolArray (powerMode : Nat) (channels : List Bool) : List Frame :=
  powerUpDown_mask powerMode (makeChannelMask_array channels)

/-- `AD56X4Class::powerUpDown (int, byte, boolean, boolean, boolean, boolean)`:
delegates to the mask form through `makeChannelMask`. -/
def powerUpDown_bools (powerMode : Nat)
    (channel_D channel_C channel_B channel_A : Bool) : List Frame :=
  powerUpDown_mask powerMode (makeChannelMask channel_D channel_C channel_B channel_A)

/-- The loop body of `AD56X4Class::powerUpDown (int, byte[])`: iterates over
the remaining indices with the running `channelMask` byte, which starts at 1
and is shifted left once per iteration. -/
def pudModesGo (powerModes : List Nat) : Nat → List Nat → List Frame
  | _, [] => []
  | channelMask, i :: rest =>
    writeMessage AD56X4_COMMAND_POWER_UPDOWN 0
        ((0b00110000 &&& (powerModes.getD i 0 % 256)) ||| (0b00001111 &&& channelMask))
      :: pudModesGo powerModes ((channelMask <<< 1) % 256) rest

/-- `AD56X4Class::powerUpDown (int, byte[])`: `channelMask = 1`, then
`for (int i = 0; i < 4; i++)` emit one frame per channel and shift the mask. -/
def powerUpDown_modes (powerModes : List Nat) : List Frame :=
  pudModesGo powerModes 1 [0, 1, 2, 3]

/-- `AD56X4Class::reset`: one frame, reset command, data `word(fullReset)`. -/
def reset (fullReset : Bool) : List Frame :=
  [writeMessage AD56X4_COMMAND_RESET 0 (cond fullReset 1 0)]

/-- `AD56X4Class::setInputMode (int, byte)`: one frame, set-LDAC command,
address 0, data `word(channelMask)`. -/
def setInputMode_mask (channelMask : Nat) : List Frame :=
  [writeMessage AD56X4_COMMAND_SET_LDAC 0 (channelMask % 256)]

/-- `AD56X4Class::setInputMode (int, boolean[])`: delegates to the mask form. -/
def setInputMode_boolArray (channels : List Bool) : List Frame :=
  setInputMode_mask (makeChannelMask_array channels)

/-- `AD56X4Class::setInputMode (int, boolean, boolean, boolean, boolean)`:
delegates to the mask form. -/
def setInputMode_bools (channel_D channel_C channel_B channel_A : Bool) : List Frame :=
  setInputMode_mask (makeChannelMask channel_D channel_C channel_B channel_A)

/-- `AD56X4Class::useInternalReference`: one frame, reference on/off command,
data `word(yesno)`. -/
def useInternalReference (yesno : Bool) : List Frame :=
  [writeMessage AD56X4_COMMAND_REFERENCE_ONOFF 0 (cond yesno 1 0)]

/-! ### General bit-manipulation lemmas used throughout -/

lemma and255_eq_mod (x : Nat) : x &&& 255 = x % 256 := by
  simpa using Nat.and_pow_two_sub_one_eq_mod x 8

lemma and15_eq_mod (x : Nat) : x &&& 15 = x % 16 := by
  simpa using Nat.and_pow_two_sub_one_eq_mod x 4

lemma and7_eq_mod (x : Nat) : x &&& 7 = x % 8 := by
  simpa using Nat.and_pow_two_sub_one_eq_mod x 3

lemma and_or_right (a b c : Nat) : (a ||| b) &&& c = (a &&& c) ||| (b &&& c) := by
  rw [Nat.and_comm, Nat.and_or_distrib_left, Nat.and_comm c a, Nat.and_comm c b]

lemma and_absorb (a x : Nat) : (a &&& x) &&& a = a &&& x := by
  rw [Nat.and_comm a x, Nat.and_assoc, Nat.and_self]

lemma and_disjoint (a b x : Nat) (h : a &&& b = 0) : (a &&& x) &&& b = 0 := by
  rw [Nat.and_comm a x, Nat.and_assoc, h, Nat.and_zero]

lemma mod256_and (x k : Nat) (hk : 255 &&& k = k) : (x % 256) &&& k = x &&& k := by
  rw [← and255_eq_mod, Nat.and_assoc, hk]

/-! ### Basic facts about `writeMessage` frames -/

lemma writeMessage_byte1 (command address data : Nat) :
    (writeMessage command address data).byte1 = (data % 65536) >>> 8 := by
  show ((data % 65536) >>> 8) % 256 = (data % 65536) >>> 8
  apply Nat.mod_eq_of_lt
  rw [Nat.shiftRight_eq_div_pow]
  have h : data % 65536 < 65536 := Nat.mod_lt _ (by norm_num)
  exact Nat.div_lt_of_lt_mul (lt_of_lt_of_le h (by norm_num))

lemma writeMessage_byte2 (command address data : Nat) :
    (writeMessage command address data).byte2 = (data % 65536) &&& 255 := by
  show (data % 65536) % 256 = (data % 65536) &&& 255
  rw [and255_eq_mod]

lemma frameData_writeMessage (command address data : Nat) :
    frameData (writeMessage command address data) = data % 65536 := by
  unfold frameData
  rw [writeMessage_byte1, writeMessage_byte2, and255_eq_mod, Nat.shiftRight_eq_div_pow]
  norm_num
  omega

lemma or48_15_lt (a b : Nat) : (48 &&& a) ||| (15 &&& b) < 64 := by
  have h1 : 48 &&& a < 2 ^ 6 := lt_of_le_of_lt Nat.and_le_left (by norm_num)
  have h2 : 15 &&& b < 2 ^ 6 := lt_of_le_of_lt Nat.and_le_left (by norm_num)
  simpa using Nat.or_lt_two_pow h1 h2

lemma or_and_15 (x m : Nat) : ((48 &&& x) ||| (15 &&& m)) &&& 15 = 15 &&& m := by
  rw [and_or_right, and_disjoint 48 15 x (by decide), Nat.zero_or, and_absorb]

lemma or_and_48 (x m : Nat) : ((48 &&& x) ||| (15 &&& m)) &&& 48 = 48 &&& x := by
  rw [and_or_right, and_absorb, and_disjoint 15 48 m (by decide), Nat.or_zero]

lemma makeChannelMask_lt : ∀ channel_D channel_C channel_B channel_A : Bool,
    makeChannelMask channel_D channel_C channel_B channel_A < 16 := by decide

lemma writeMessage_byte0 (command address data : Nat) :
    (writeMessage command address data).byte0
      = ((command % 256) &&& 56) ||| ((address % 256) &&& 7) := rfl

lemma pud_data (x mask : Nat) :
    frameData (writeMessage AD56X4_COMMAND_POWER_UPDOWN 0 ((48 &&& x) ||| (15 &&& mask)))
      = (48 &&& x) ||| (15 &&& mask) := by
  rw [frameData_writeMessage]
  exact Nat.mod_eq_of_lt (lt_trans (or48_15_lt x mask) (by norm_num))

/-! ### Claim theorems -/

/-- Claim C7: for every boolean `fullReset`, `reset` emits exactly one frame
with the reset command and data 1 if `fullReset` else 0; in particular
`reset true` emits the single frame `[0x28, 0x00, 0x01]`. -/
theorem reset_spec :
    (∀ fullReset : Bool,
        reset fullReset = [Frame.mk 0x28 0x00 (cond fullReset 1 0)])
    ∧ reset true = [Frame.mk 0x28 0x00 0x01] := by
  constructor
  · intro b
    cases b <;> decide
  · decide

/-- Claim C2: `makeChannelMask` over booleans D, C, B, A equals
`8*D + 4*C + 2*B + A` (booleans as 0/1), agrees with the 4-element array
form in D,C,B,A order, and is injective over the 16 boolean combinations. -/
theorem makeChannelMask_spec :
    (∀ channel_D channel_C channel_B channel_A : Bool,
        makeChannelMask channel_D channel_C channel_B channel_A
            = 8 * (cond channel_D 1 0) + 4 * (cond channel_C 1 0)
                + 2 * (cond channel_B 1 0) + (cond channel_A 1 0)
        ∧ makeChannelMask_array [channel_D, channel_C, channel_B, channel_A]
            = makeChannelMask channel_D channel_C channel_B channel_A)
    ∧ ∀ d c b a d' c' b' a' : Bool,
        makeChannelMask d c b a = makeChannelMask d' c' b' a' →
          d = d' ∧ c = c' ∧ b = b' ∧ a = a' := by decide

/-- Witness for C2 at a concrete input: mask of (D,C,B,A) = (t,f,t,f) is 10. -/
theorem makeChannelMask_spec_witness :
    makeChannelMask true false true false = 10 := by
  have h := (makeChannelMask_spec.1 true false true false).1
  simpa using h

/-- Claim C1: for every command among the 8 command constants, every address
among the 5 channel constants, and every 16-bit data word, the frame built by
`writeMessage` has byte0 with top two bits 0, bits 5:3 the command code,
bits 2:0 the address code, byte1 = data >> 8 and byte2 = data & 0xFF. -/
theorem writeMessage_frame_encoding :
    ∀ command ∈ [AD56X4_COMMAND_WRITE_INPUT_REGISTER, AD56X4_COMMAND_UPDATE_DAC_REGISTER,
        AD56X4_COMMAND_WRITE_INPUT_REGISTER_UPDATE_ALL, AD56X4_COMMAND_WRITE_UPDATE_CHANNEL,
        AD56X4_COMMAND_POWER_UPDOWN, AD56X4_COMMAND_RESET, AD56X4_COMMAND_SET_LDAC,
        AD56X4_COMMAND_REFERENCE_ONOFF],
      ∀ address ∈ [AD56X4_CHANNEL_A, AD56X4_CHANNEL_B, AD56X4_CHANNEL_C,
        AD56X4_CHANNEL_D, AD56X4_CHANNEL_ALL],
        ∀ data : Nat, data < 65536 →
          (writeMessage command address data).byte0 / 64 = 0
          ∧ ((writeMessage command address data).byte0 / 8) % 8 = command / 8
          ∧ (writeMessage command address data).byte0 % 8 = address
          ∧ (writeMessage command address data).byte1 = data >>> 8
          ∧ (writeMessage command address data).byte2 = data &&& 255 := by
  intro c hc a ha d hd
  have h1 : (writeMessage c a d).byte1 = d >>> 8 := by
    rw [writeMessage_byte1, Nat.mod_eq_of_lt hd]
  have h2 : (writeMessage c a d).byte2 = d &&& 255 := by
    rw [writeMessage_byte2, Nat.mod_eq_of_lt hd]
  refine ⟨?_, ?_, ?_, h1, h2⟩ <;> fin_cases hc <;> fin_cases ha <;>
    simp only [writeMessage] <;> decide

/-- Witness for C1 at command = reset, address = channel B, data = 0x0ABC. -/
theorem writeMessage_frame_encoding_witness :
    ((writeMessage AD56X4_COMMAND_RESET AD56X4_CHANNEL_B 0x0ABC).byte0 / 8) % 8
        = AD56X4_COMMAND_RESET / 8
    ∧ (writeMessage AD56X4_COMMAND_RESET AD56X4_CHANNEL_B 0x0ABC).byte2
        = 0x0ABC &&& 255 := by
  have h := writeMessage_frame_encoding AD56X4_COMMAND_RESET (by decide)
    AD56X4_CHANNEL_B (by decide) 0x0ABC (by decide)
  exact ⟨h.2.1, h.2.2.2.2⟩

/-- Claim C3: for every valid set mode, `setChannel` given four values emits
exactly 4 frames, addressing channels D, C, B, A each exactly once, each
frame's data being the value supplied for that channel (array index 0 = D
down to index 3 = A), and the frame sequence is identical between the array
form and the four-argument form. -/
theorem setChannel_four_spec :
    ∀ setMode ∈ [AD56X4_SETMODE_INPUT, AD56X4_SETMODE_INPUT_DAC, AD56X4_SETMODE_INPUT_DAC_ALL],
      ∀ value_D value_C value_B value_A : Nat,
        value_D < 65536 → value_C < 65536 → value_B < 65536 → value_A < 65536 →
          (setChannel_four setMode value_D value_C value_B value_A).length = 4
          ∧ (setChannel_four setMode value_D value_C value_B value_A).map (fun f => f.byte0 % 8)
              = [AD56X4_CHANNEL_D, AD56X4_CHANNEL_C, AD56X4_CHANNEL_B, AD56X4_CHANNEL_A]
          ∧ (setChannel_four setMode value_D value_C value_B value_A).map frameData
              = [value_D, value_C, value_B, value_A]
          ∧ setChannel_four setMode value_D value_C value_B value_A
              = setChannel_array setMode [value_D, value_C, value_B, value_A] := by
  intro m hm vD vC vB vA hD hC hB hA
  fin_cases hm <;>
    exact ⟨by simp +decide [setChannel_four, setChannel_array],
           by simp +decide [setChannel_four, setChannel_array, writeMessage],
           by simp +decide [setChannel_four, setChannel_array, frameData_writeMessage,
                Nat.mod_eq_of_lt hD, Nat.mod_eq_of_lt hC, Nat.mod_eq_of_lt hB,
                Nat.mod_eq_of_lt hA],
           rfl⟩

/-- Witness for C3 at set mode = input register, values 10, 20, 30, 40. -/
theorem setChannel_four_spec_witness :
    (setChannel_four AD56X4_SETMODE_INPUT 10 20 30 40).map frameData = [10, 20, 30, 40] := by
  have h := setChannel_four_spec AD56X4_SETMODE_INPUT (by decide) 10 20 30 40
    (by decide) (by decide) (by decide) (by decide)
  exact h.2.2.1

/-- Claim C4: for every byte set mode that is not one of the three recognized
codes, every form of `setChannel` emits zero frames, and any number of such
calls emits nothing at all. -/
theorem setChannel_invalid_setMode_noop :
    ∀ setMode : Nat, setMode < 256 →
      setMode ∉ [AD56X4_SETMODE_INPUT, AD56X4_SETMODE_INPUT_DAC, AD56X4_SETMODE_INPUT_DAC_ALL] →
        ∀ channel value value_D value_C value_B value_A : Nat,
          ∀ values : List Nat, ∀ n : Nat,
            setChannel_single setMode channel value = []
            ∧ setChannel_array setMode values = []
            ∧ setChannel_four setMode value_D value_C value_B value_A = []
            ∧ (List.replicate n (setChannel_single setMode channel value)).flatten = [] := by
  intro m hm hnot c v vD vC vB vA values n
  have hcond : ¬(m % 256 = AD56X4_SETMODE_INPUT ∨ m % 256 = AD56X4_SETMODE_INPUT_DAC
      ∨ m % 256 = AD56X4_SETMODE_INPUT_DAC_ALL) := by
    rw [Nat.mod_eq_of_lt hm]
    intro hor
    exact hnot (by rcases hor with h | h | h <;> simp [h])
  have h1 : setChannel_single m c v = [] := by
    unfold setChannel_single
    rw [if_neg hcond]
  refine ⟨h1, ?_, ?_, ?_⟩
  · unfold setChannel_array
    rw [if_neg hcond]
  · unfold setChannel_four setChannel_array
    rw [if_neg hcond]
  · rw [h1]
    simp

/-- Witness for C4 at set mode 1 (unrecognized), two repeated calls. -/
theorem setChannel_invalid_setMode_noop_witness :
    setChannel_single 1 0 100 = []
    ∧ (List.replicate 2 (setChannel_single 1 0 100)).flatten = [] := by
  have h := setChannel_invalid_setMode_noop 1 (by decide) (by decide) 0 100 0 0 0 0 [] 2
  exact ⟨h.1, h.2.2.2⟩

/-- Claim C8: for every valid set mode, every channel constant and every
16-bit value, the single-channel `setChannel` emits exactly one frame whose
data is the given value; in particular with set mode INPUT_DAC, channel B and
value 0x0ABC the single frame is `[0x19, 0x0A, 0xBC]`. -/
theorem setChannel_single_spec :
    (∀ setMode ∈ [AD56X4_SETMODE_INPUT, AD56X4_SETMODE_INPUT_DAC, AD56X4_SETMODE_INPUT_DAC_ALL],
      ∀ channel ∈ [AD56X4_CHANNEL_A, AD56X4_CHANNEL_B, AD56X4_CHANNEL_C, AD56X4_CHANNEL_D,
        AD56X4_CHANNEL_ALL],
        ∀ value : Nat, value < 65536 →
          (setChannel_single setMode channel value).length = 1
          ∧ (setChannel_single setMode channel value).map frameData = [value])
    ∧ setChannel_single AD56X4_SETMODE_INPUT_DAC AD56X4_CHANNEL_B 0x0ABC
        = [Frame.mk 0x19 0x0A 0xBC] := by
  constructor
  · intro m hm c hc v hv
    fin_cases hm <;> fin_cases hc <;>
      exact ⟨by simp +decide [setChannel_single],
             by simp +decide [setChannel_single, frameData_writeMessage, Nat.mod_eq_of_lt hv]⟩
  · decide

/-- Witness for C8 at set mode INPUT_DAC, channel B, value 2748 = 0x0ABC. -/
theorem setChannel_single_spec_witness :
    (setChannel_single AD56X4_SETMODE_INPUT_DAC AD56X4_CHANNEL_B 2748).map frameData
      = [2748] := by
  have h := setChannel_single_spec.1 AD56X4_SETMODE_INPUT_DAC (by decide)
    AD56X4_CHANNEL_B (by decide) 2748 (by decide)
  exact h.2

/-- Claim C5: for every 4-element array of power modes, the per-channel form
of `powerUpDown` emits exactly 4 frames, each with the power-updown command,
whose channel-mask fields (data bits 3:0) are 0001, 0010, 0100, 1000 in that
order, and whose mode fields (data bits 5:4) equal the corresponding array
entry's mode bits. -/
theorem powerUpDown_modes_spec :
    ∀ m0 m1 m2 m3 : Nat,
      (powerUpDown_modes [m0, m1, m2, m3]).length = 4
      ∧ (powerUpDown_modes [m0, m1, m2, m3]).map (fun f => f.byte0)
          = [AD56X4_COMMAND_POWER_UPDOWN, AD56X4_COMMAND_POWER_UPDOWN,
             AD56X4_COMMAND_POWER_UPDOWN, AD56X4_COMMAND_POWER_UPDOWN]
      ∧ (powerUpDown_modes [m0, m1, m2, m3]).map (fun f => frameData f &&& 15)
          = [1, 2, 4, 8]
      ∧ (powerUpDown_modes [m0, m1, m2, m3]).map (fun f => frameData f &&& 48)
          = [48 &&& (m0 % 256), 48 &&& (m1 % 256), 48 &&& (m2 % 256), 48 &&& (m3 % 256)] := by
  intro m0 m1 m2 m3
  have e : powerUpDown_modes [m0, m1, m2, m3]
      = [writeMessage AD56X4_COMMAND_POWER_UPDOWN 0 ((48 &&& (m0 % 256)) ||| (15 &&& 1)),
         writeMessage AD56X4_COMMAND_POWER_UPDOWN 0 ((48 &&& (m1 % 256)) ||| (15 &&& 2)),
         writeMessage AD56X4_COMMAND_POWER_UPDOWN 0 ((48 &&& (m2 % 256)) ||| (15 &&& 4)),
         writeMessage AD56X4_COMMAND_POWER_UPDOWN 0 ((48 &&& (m3 % 256)) ||| (15 &&& 8))] := rfl
  rw [e]
  refine ⟨rfl, ?_, ?_, ?_⟩
  · simp only [List.map_cons, List.map_nil, writeMessage_byte0]
    decide
  · simp only [List.map_cons, List.map_nil, pud_data, or_and_15]
    decide
  · simp only [List.map_cons, List.map_nil, pud_data, or_and_48]

/-- Claim C6: for every byte power mode and every 4-bit channel mask, the
mask form of `powerUpDown` emits exactly one frame with the power-updown
command, address 0, and data `(powerMode & 0x30) | (channelMask & 0x0F)`;
the boolean and boolean-array forms emit the same single frame with the
mask built by `makeChannelMask`. -/
theorem powerUpDown_mask_spec :
    ∀ powerMode : Nat, powerMode < 256 →
      ∀ channelMask : Nat, channelMask < 16 →
        (powerUpDown_mask powerMode channelMask).length = 1
        ∧ (powerUpDown_mask powerMode channelMask).map (fun f => f.byte0)
            = [AD56X4_COMMAND_POWER_UPDOWN]
        ∧ (powerUpDown_mask powerMode channelMask).map frameData
            = [(powerMode &&& 48) ||| (channelMask &&& 15)]
        ∧ ∀ channel_D channel_C channel_B channel_A : Bool,
            powerUpDown_bools powerMode channel_D channel_C channel_B channel_A
              = powerUpDown_mask powerMode
                  (makeChannelMask channel_D channel_C channel_B channel_A)
            ∧ powerUpDown_boolArray powerMode [channel_D, channel_C, channel_B, channel_A]
              = powerUpDown_mask powerMode
                  (makeChannelMask channel_D channel_C channel_B channel_A) := by
  intro p hp m hm
  refine ⟨rfl, ?_, ?_, ?_⟩
  · simp only [powerUpDown_mask, List.map_cons, List.map_nil, writeMessage_byte0]
    decide
  · simp only [powerUpDown_mask, List.map_cons, List.map_nil, pud_data]
    rw [Nat.mod_eq_of_lt hp, Nat.mod_eq_of_lt (lt_trans hm (by norm_num)),
      Nat.and_comm 48 p, Nat.and_comm 15 m]
  · intro cD cC cB cA
    exact ⟨rfl, rfl⟩

/-- Witness for C6 at power mode 1k-to-ground, channel mask 5. -/
theorem powerUpDown_mask_spec_witness :
    (powerUpDown_mask AD56X4_POWERMODE_POWERDOWN_1K 5).map frameData
      = [(AD56X4_POWERMODE_POWERDOWN_1K &&& 48) ||| (5 &&& 15)] := by
  have h := powerUpDown_mask_spec AD56X4_POWERMODE_POWERDOWN_1K (by decide) 5 (by decide)
  exact h.2.2.1

/-- Claim C9: every boolean and boolean-array form of `powerUpDown` and
`setInputMode` emits a frame whose channel-mask bits outside the low 4 are
zero: the `setInputMode` data word is the mask itself, below 16, and the
`powerUpDown` data word is below 64 with its low nibble equal to the mask. -/
theorem boolForms_channelMask_low4 :
    ∀ powerMode : Nat, ∀ channel_D channel_C channel_B channel_A : Bool,
      makeChannelMask channel_D channel_C channel_B channel_A < 16
      ∧ (setInputMode_bools channel_D channel_C channel_B channel_A).map frameData
          = [makeChannelMask channel_D channel_C channel_B channel_A]
      ∧ (setInputMode_boolArray [channel_D, channel_C, channel_B, channel_A]).map frameData
          = [makeChannelMask channel_D channel_C channel_B channel_A]
      ∧ (powerUpDown_bools powerMode channel_D channel_C channel_B channel_A).map frameData
          = [(48 &&& (powerMode % 256))
              ||| (makeChannelMask channel_D channel_C channel_B channel_A)]
      ∧ (powerUpDown_boolArray powerMode
            [channel_D, channel_C, channel_B, channel_A]).map frameData
          = [(48 &&& (powerMode % 256))
              ||| (makeChannelMask channel_D channel_C channel_B channel_A)]
      ∧ (48 &&& (powerMode % 256))
          ||| (makeChannelMask channel_D channel_C channel_B channel_A) < 64
      ∧ ((48 &&& (powerMode % 256))
          ||| (makeChannelMask channel_D channel_C channel_B channel_A)) &&& 15
          = makeChannelMask channel_D channel_C channel_B channel_A := by
  intro p cD cC cB cA
  have hmask := makeChannelMask_lt cD cC cB cA
  have harr : makeChannelMask_array [cD, cC, cB, cA] = makeChannelMask cD cC cB cA := rfl
  simp only [setInputMode_bools, setInputMode_boolArray, setInputMode_mask,
    powerUpDown_bools, powerUpDown_boolArray, powerUpDown_mask, harr,
    List.map_cons, List.map_nil, frameData_writeMessage, pud_data]
  generalize hg : makeChannelMask cD cC cB cA = k
  rw [hg] at hmask
  have h1 : k % 256 = k := Nat.mod_eq_of_lt (lt_trans hmask (by norm_num))
  have h3 : 15 &&& k = k := by
    rw [Nat.and_comm, and15_eq_mod]
    exact Nat.mod_eq_of_lt hmask
  have h6 : (48 &&& (p % 256)) ||| k < 64 := by
    conv_lhs => rw [← h3]
    exact or48_15_lt _ _
  refine ⟨hmask, ?_, ?_, ?_, ?_, h6, ?_⟩
  · rw [h1, Nat.mod_eq_of_lt (lt_trans hmask (by norm_num))]
  · rw [h1, Nat.mod_eq_of_lt (lt_trans hmask (by norm_num))]
  · rw [h1, h3, Nat.mod_eq_of_lt (lt_trans h6 (by norm_num))]
  · rw [h1, h3, Nat.mod_eq_of_lt (lt_trans h6 (by norm_num))]
  · conv_lhs => rw [← h3]
    rw [or_and_15, h3]

/-- Claim C10: the library does no runtime validation beyond the setChannel
set-mode check: for every byte channel, including the chip-undefined address
codes 4, 5, 6, `updateChannel` and the single-channel `setChannel` (with a
valid set mode) emit exactly one frame whose address bits are channel mod 8,
and for every byte power mode (enumerated constant or not) `powerUpDown`
masks it to bits 5:4 and emits a frame. -/
theorem no_runtime_validation :
    ∀ channel : Nat, channel < 256 →
      ((updateChannel channel).length = 1
        ∧ (updateChannel channel).map (fun f => f.byte0 % 8) = [channel % 8]
        ∧ (updateChannel channel).map (fun f => f.byte0 / 8 % 8)
            = [AD56X4_COMMAND_UPDATE_DAC_REGISTER / 8])
      ∧ (∀ setMode ∈ [AD56X4_SETMODE_INPUT, AD56X4_SETMODE_INPUT_DAC,
            AD56X4_SETMODE_INPUT_DAC_ALL],
          ∀ value : Nat, value < 65536 →
            (setChannel_single setMode channel value).length = 1
            ∧ (setChannel_single setMode channel value).map (fun f => f.byte0 % 8)
                = [channel % 8])
      ∧ ∀ powerMode : Nat, powerMode < 256 →
          (powerUpDown_mask powerMode channel).length = 1
          ∧ (powerUpDown_mask powerMode channel).map (fun f => frameData f &&& 48)
              = [powerMode &&& 48] := by
  intro c hc
  refine ⟨?_, ?_, ?_⟩
  · revert c
    decide
  · intro m hm v hv
    fin_cases hm <;>
      refine ⟨by simp +decide [setChannel_single], ?_⟩ <;>
      · simp only [setChannel_single]
        rw [if_pos (by decide)]
        simp only [List.map_cons, List.map_nil, writeMessage_byte0]
        revert c
        decide
  · intro p hp
    refine ⟨rfl, ?_⟩
    simp only [powerUpDown_mask, List.map_cons, List.map_nil, pud_data, or_and_48]
    rw [Nat.mod_eq_of_lt hp, Nat.and_comm]

/-- Witness for C10 at channel 5 (a chip-undefined address code) and power
mode 55 (not one of the 4 enumerated constants). -/
theorem no_runtime_validation_witness :
    (updateChannel 5).map (fun f => f.byte0 % 8) = [5 % 8]
    ∧ (powerUpDown_mask 55 5).map (fun f => frameData f &&& 48) = [55 &&& 48] := by
  have h := no_runtime_validation 5 (by decide)
  exact ⟨h.1.2.1, (h.2.2 55 (by decide)).2⟩

end AD56X4
